import Mathlib

/-!
Shallow embedding of the webhook event-dispatch and message-formatting core of
the repository: `zerver/webhooks/updown/view.py` and `zerver/webhooks/gci/view.py`.

Strings are modelled by Lean `String`, Python integers by `Int` (Python's
`divmod` is floor division / floor remainder, i.e. `Int.fdiv` / `Int.fmod`),
payload dictionaries by structures holding the fields the handlers read, and
raising an exception by returning `none`.
-/

namespace Updown

/-- Fields of `event["downtime"]` read by the Updown handlers. -/
structure Downtime where
  error : String
  started_at : String
  duration : Int
deriving Repr, DecidableEq

/-- Fields of one Updown event object read by the handlers: `event["event"]`,
`event["check"]["url"]` and `event["downtime"]`. -/
structure UpdownEvent where
  event : String
  check_url : String
  downtime : Downtime
deriving Repr, DecidableEq

/-- The `divmod` cascade at the top of `get_time_string_based_on_duration`:
`days, reminder = divmod(duration, 86400)`, `hours, reminder = divmod(reminder, 3600)`,
`minutes, seconds = divmod(reminder, 60)`.  Python `divmod` is floor
division with floor remainder, i.e. `Int.fdiv`/`Int.fmod`. -/
def duration_components (duration : Int) : Int × Int × Int × Int :=
  let days := duration.fdiv 86400
  let reminder := duration.fmod 86400
  let hours := reminder.fdiv 3600
  let reminder2 := reminder.fmod 3600
  let minutes := reminder2.fdiv 60
  let seconds := reminder2.fmod 60
  (days, hours, minutes, seconds)

/-- `add_time_part_to_string_date_if_needed(value, text_name)`: singular part for
`value == 1`, plural part for `value > 1`, empty string otherwise; each
non-empty part carries one trailing space. -/
def add_time_part_to_string_date_if_needed (value : Int) (text_name : String) : String :=
  if value = 1 then "1 " ++ text_name ++ " "
  else if value > 1 then toString value ++ " " ++ text_name ++ "s "
  else ""

/-- Python `str.rstrip()` with no argument: drop all trailing whitespace. -/
def py_rstrip (s : String) : String :=
  String.mk (s.data.reverse.dropWhile Char.isWhitespace).reverse

/-- `get_time_string_based_on_duration(duration)`: decompose into
days/hours/minutes/seconds, append the four parts and strip the trailing
whitespace. -/
def get_time_string_based_on_duration (duration : Int) : String :=
  let c := duration_components duration
  py_rstrip
    (add_time_part_to_string_date_if_needed c.1 "day"
      ++ add_time_part_to_string_date_if_needed c.2.1 "hour"
      ++ add_time_part_to_string_date_if_needed c.2.2.1 "minute"
      ++ add_time_part_to_string_date_if_needed c.2.2.2 "second")

/-- `get_body_for_up_event(event)`: starts from `` "Service is `up`" ``, appends
`" again"` when `downtime["started_at"]` is truthy (non-empty string), then
`" after <duration>"` when the formatted duration string is non-empty, and
finally `"."`. -/
def get_body_for_up_event (e : UpdownEvent) : String :=
  let body := "Service is `up`"
  let body :=
    if e.downtime.started_at ≠ "" then
      let body := body ++ " again"
      let string_date := get_time_string_based_on_duration e.downtime.duration
      if string_date ≠ "" then body ++ " after " ++ string_date else body
    else body
  body ++ "."

/-- One step of Python `str.replace` with a single-character pattern `c`:
every occurrence of `c` in the character list is replaced by `r`. -/
def replace_char (c : Char) (r : List Char) : List Char → List Char
  | [] => []
  | x :: xs => (if x = c then r else [x]) ++ replace_char c r xs

/-- The timestamp rewriting in `get_body_for_down_event`:
`started_at.replace("T", " ").replace("Z", " UTC")`. -/
def down_timestamp (started_at : String) : String :=
  String.mk (replace_char 'Z' " UTC".data (replace_char 'T' " ".data started_at.data))

/-- `get_body_for_down_event(event)`. -/
def get_body_for_down_event (e : UpdownEvent) : String :=
  "Service is `down`. It returned a " ++ e.downtime.error ++ " error at "
    ++ down_timestamp e.downtime.started_at ++ "."

/-- `EVENT_TYPE_BODY_MAPPER`, in source order. -/
def EVENT_TYPE_BODY_MAPPER : List (String × (UpdownEvent → String)) :=
  [("up", get_body_for_up_event), ("down", get_body_for_down_event)]

/-- The effect of `re.match("check.(.*)", event_name)` plus `.group(1)`:
`re.match` anchors at the start only, `.` is a wildcard matching any character
except newline, and the greedy `(.*)` captures everything up to the first
newline (or the end).  Returns the captured group when the pattern matches. -/
def extract_event_type : List Char → Option (List Char)
  | 'c' :: 'h' :: 'e' :: 'c' :: 'k' :: c :: rest =>
      if c = '\n' then none else some (rest.takeWhile (fun ch => ch ≠ '\n'))
  | _ => none

/-- `get_event_type(event)`: regex-match the `event` field, then require the
captured type to be a key of `EVENT_TYPE_BODY_MAPPER`; `none` models raising
`UnsupportedWebhookEventType`. -/
def get_event_type (event : String) : Option String :=
  match extract_event_type event.data with
  | some t =>
      if (EVENT_TYPE_BODY_MAPPER.lookup (String.mk t)).isSome then some (String.mk t)
      else none
  | none => none

/-- The arguments of one `check_send_webhook_message` delivery call. -/
structure Envelope where
  topic : String
  body : String
  event_type : String
deriving Repr, DecidableEq

/-- `TOPIC_TEMPLATE.format(service_url=...)` where `TOPIC_TEMPLATE = "{service_url}"`. -/
def TOPIC_TEMPLATE_format (service_url : String) : String := service_url

/-- `send_message_for_event(request, user_profile, event)`: classify, resolve the
topic, format the body, and hand the triple to `check_send_webhook_message`.
`none` models the classification (or mapper lookup) raising. -/
def send_message_for_event (e : UpdownEvent) : Option Envelope :=
  match get_event_type e.event with
  | none => none
  | some event_type =>
      match EVENT_TYPE_BODY_MAPPER.lookup event_type with
      | none => none
      | some f =>
          some { topic := TOPIC_TEMPLATE_format e.check_url, body := f e, event_type := event_type }

/-- The loop of `api_updown_webhook`: events are processed first-to-last; each
successful `send_message_for_event` appends one delivery to the trace; a
failure raises immediately, keeping the deliveries already performed.  The
Boolean records whether the loop completed (`json_success`). -/
def run_batch : List UpdownEvent → List Envelope → List Envelope × Bool
  | [], sent => (sent, true)
  | e :: rest, sent =>
      match send_message_for_event e with
      | none => (sent, false)
      | some env => run_batch rest (sent ++ [env])

/-- `api_updown_webhook(request, user_profile, payload)` on an already-parsed
payload list: returns the delivery trace and whether processing completed. -/
def api_updown_webhook (payload : List UpdownEvent) : List Envelope × Bool :=
  run_batch payload []

end Updown

namespace GCI

/-- Fields of a GCI payload read by the handlers. -/
structure GCIPayload where
  event_type : String
  task_claimed_by : String
  author : String
  task_definition_name : String
  task_instance : String
  extension_days : Int
deriving Repr, DecidableEq

/-- `build_instance_url(instance_id)`. -/
def build_instance_url (instance_id : String) : String :=
  "https://codein.withgoogle.com/dashboard/task-instances/" ++ instance_id ++ "/"

/-- `GCI_MESSAGE_TEMPLATE.format(actor=..., action=..., task_name=..., task_url=...)`
where `GCI_MESSAGE_TEMPLATE = "**{actor}** {action} the task [{task_name}]({task_url})."`. -/
def GCI_MESSAGE_TEMPLATE_format (actor action task_name task_url : String) : String :=
  "**" ++ actor ++ "** " ++ action ++ " the task [" ++ task_name ++ "](" ++ task_url ++ ")."

/-- `GCI_MESSAGE_TEMPLATE.rstrip(".")` instantiated like above: the template
with its single trailing period stripped, used by the formatters that append
trailing context. -/
def GCI_MESSAGE_TEMPLATE_rstrip_dot_format (actor action task_name task_url : String) : String :=
  "**" ++ actor ++ "** " ++ action ++ " the task [" ++ task_name ++ "](" ++ task_url ++ ")"

/-- `get_abandon_event_body(payload)`. -/
def get_abandon_event_body (p : GCIPayload) : String :=
  GCI_MESSAGE_TEMPLATE_format p.task_claimed_by (p.event_type ++ "ed")
    p.task_definition_name (build_instance_url p.task_instance)

/-- `get_submit_event_body(payload)`. -/
def get_submit_event_body (p : GCIPayload) : String :=
  GCI_MESSAGE_TEMPLATE_format p.task_claimed_by (p.event_type ++ "ted")
    p.task_definition_name (build_instance_url p.task_instance)

/-- `get_comment_event_body(payload)`. -/
def get_comment_event_body (p : GCIPayload) : String :=
  GCI_MESSAGE_TEMPLATE_format p.author (p.event_type ++ "ed on")
    p.task_definition_name (build_instance_url p.task_instance)

/-- `get_claim_event_body(payload)`. -/
def get_claim_event_body (p : GCIPayload) : String :=
  GCI_MESSAGE_TEMPLATE_format p.task_claimed_by (p.event_type ++ "ed")
    p.task_definition_name (build_instance_url p.task_instance)

/-- `get_approve_event_body(payload)`. -/
def get_approve_event_body (p : GCIPayload) : String :=
  GCI_MESSAGE_TEMPLATE_format p.author (p.event_type ++ "d")
    p.task_definition_name (build_instance_url p.task_instance)

/-- `get_approve_pending_pc_event_body(payload)`: the rstripped template with
`" (pending parental consent)."` appended, actor `author`, action `"approved"`. -/
def get_approve_pending_pc_event_body (p : GCIPayload) : String :=
  GCI_MESSAGE_TEMPLATE_rstrip_dot_format p.author "approved"
      p.task_definition_name (build_instance_url p.task_instance)
    ++ " (pending parental consent)."

/-- `get_needswork_event_body(payload)`. -/
def get_needswork_event_body (p : GCIPayload) : String :=
  GCI_MESSAGE_TEMPLATE_rstrip_dot_format p.author "submitted"
      p.task_definition_name (build_instance_url p.task_instance)
    ++ " for more work."

/-- `get_extend_event_body(payload)`: the rstripped template with
`" by {extension_days} day(s)."` appended, actor `author`,
action `"extended the deadline for"`. -/
def get_extend_event_body (p : GCIPayload) : String :=
  GCI_MESSAGE_TEMPLATE_rstrip_dot_format p.author "extended the deadline for"
      p.task_definition_name (build_instance_url p.task_instance)
    ++ " by " ++ toString p.extension_days ++ " day(s)."

/-- `get_unassign_event_body(payload)`. -/
def get_unassign_event_body (p : GCIPayload) : String :=
  GCI_MESSAGE_TEMPLATE_format p.author
    ("unassigned **" ++ p.task_claimed_by ++ "** from")
    p.task_definition_name (build_instance_url p.task_instance)

/-- `get_outoftime_event_body(payload)`: the one formatter with its own
sentence shape. -/
def get_outoftime_event_body (p : GCIPayload) : String :=
  "The deadline for the task [" ++ p.task_definition_name ++ "]("
    ++ build_instance_url p.task_instance ++ ") has passed."

/-- `EVENTS_FUNCTION_MAPPER`, in source order. -/
def EVENTS_FUNCTION_MAPPER : List (String × (GCIPayload → String)) :=
  [("abandon", get_abandon_event_body),
   ("approve", get_approve_event_body),
   ("approve-pending-pc", get_approve_pending_pc_event_body),
   ("claim", get_claim_event_body),
   ("comment", get_comment_event_body),
   ("extend", get_extend_event_body),
   ("needswork", get_needswork_event_body),
   ("outoftime", get_outoftime_event_body),
   ("submit", get_submit_event_body),
   ("unassign", get_unassign_event_body)]

/-- `get_event(payload)`: return `payload["event_type"]` when it is a key of
`EVENTS_FUNCTION_MAPPER`; `none` models raising `UnknownEventType`. -/
def get_event (p : GCIPayload) : Option String :=
  if (EVENTS_FUNCTION_MAPPER.lookup p.event_type).isSome then some p.event_type else none

/-- `get_body_based_on_event(event)`; `none` models the `KeyError` on an
unregistered key. -/
def get_body_based_on_event (event : String) : Option (GCIPayload → String) :=
  EVENTS_FUNCTION_MAPPER.lookup event

end GCI

namespace Updown

/-- Helper: appending a string with non-empty data never yields the empty string. -/
theorem append_right_ne_empty (s t : String) (ht : t.data ≠ []) : s ++ t ≠ "" := by
  intro h
  have hd := congrArg String.data h
  rw [String.data_append] at hd
  exact ht (List.append_eq_nil.mp hd).2

/-- C1: the duration formatter satisfies the reference vectors
`formatDuration(0) = ""`, `formatDuration(1) = "1 second"`,
`formatDuration(61) = "1 minute 1 second"`, `formatDuration(90000) = "1 day 1 hour"`,
and each component part is rendered singular at value 1, pluralized above 1,
and omitted at value below 1. -/
theorem updown_duration_format_reference_vectors :
    get_time_string_based_on_duration 0 = ""
    ∧ get_time_string_based_on_duration 1 = "1 second"
    ∧ get_time_string_based_on_duration 61 = "1 minute 1 second"
    ∧ get_time_string_based_on_duration 90000 = "1 day 1 hour"
    ∧ (∀ u : String, add_time_part_to_string_date_if_needed 1 u = "1 " ++ u ++ " ")
    ∧ (∀ (v : Int) (u : String), 1 < v →
        add_time_part_to_string_date_if_needed v u = toString v ++ " " ++ u ++ "s ")
    ∧ (∀ (v : Int) (u : String), v < 1 → add_time_part_to_string_date_if_needed v u = "") := by
  refine ⟨by decide, by decide, by decide, by decide, ?_, ?_, ?_⟩
  · intro u
    simp [add_time_part_to_string_date_if_needed]
  · intro v u h
    unfold add_time_part_to_string_date_if_needed
    rw [if_neg (by omega), if_pos h]
  · intro v u h
    unfold add_time_part_to_string_date_if_needed
    rw [if_neg (by omega), if_neg (by omega)]

/-- C1 witness: the singular, plural and omitted branches at concrete inputs. -/
theorem updown_duration_format_reference_vectors_witness :
    add_time_part_to_string_date_if_needed 1 "day" = "1 " ++ "day" ++ " "
    ∧ add_time_part_to_string_date_if_needed 2 "day" = toString (2 : Int) ++ " " ++ "day" ++ "s "
    ∧ add_time_part_to_string_date_if_needed 0 "day" = "" :=
  ⟨updown_duration_format_reference_vectors.2.2.2.2.1 "day",
   updown_duration_format_reference_vectors.2.2.2.2.2.1 2 "day" (by norm_num),
   updown_duration_format_reference_vectors.2.2.2.2.2.2 0 "day" (by norm_num)⟩

/-- C9: for a non-negative duration the divmod cascade yields components with
`days*86400 + hours*3600 + minutes*60 + seconds = duration`, each component
non-negative, and `hours < 24`, `minutes < 60`, `seconds < 60`. -/
theorem updown_duration_decomposition (d : Int) (hd : 0 ≤ d) :
    (duration_components d).1 * 86400 + (duration_components d).2.1 * 3600
        + (duration_components d).2.2.1 * 60 + (duration_components d).2.2.2 = d
    ∧ 0 ≤ (duration_components d).1
    ∧ 0 ≤ (duration_components d).2.1 ∧ (duration_components d).2.1 < 24
    ∧ 0 ≤ (duration_components d).2.2.1 ∧ (duration_components d).2.2.1 < 60
    ∧ 0 ≤ (duration_components d).2.2.2 ∧ (duration_components d).2.2.2 < 60 := by
  simp only [duration_components]
  have h1 := Int.fmod_add_fdiv d 86400
  have h2 := Int.fmod_add_fdiv (d.fmod 86400) 3600
  have h3 := Int.fmod_add_fdiv ((d.fmod 86400).fmod 3600) 60
  have p1 : (0 : Int) < 86400 := by norm_num
  have p2 : (0 : Int) < 3600 := by norm_num
  have p3 : (0 : Int) < 60 := by norm_num
  have b1 := Int.fmod_lt_of_pos d p1
  have b1n := Int.fmod_nonneg' d p1
  have b2 := Int.fmod_lt_of_pos (d.fmod 86400) p2
  have b2n := Int.fmod_nonneg' (d.fmod 86400) p2
  have b3 := Int.fmod_lt_of_pos ((d.fmod 86400).fmod 3600) p3
  have b3n := Int.fmod_nonneg' ((d.fmod 86400).fmod 3600) p3
  omega

/-- C9 witness: the decomposition invariant at duration 90061. -/
theorem updown_duration_decomposition_witness :
    (duration_components 90061).1 * 86400 + (duration_components 90061).2.1 * 3600
        + (duration_components 90061).2.2.1 * 60 + (duration_components 90061).2.2.2 = 90061
    ∧ 0 ≤ (duration_components 90061).1
    ∧ 0 ≤ (duration_components 90061).2.1 ∧ (duration_components 90061).2.1 < 24
    ∧ 0 ≤ (duration_components 90061).2.2.1 ∧ (duration_components 90061).2.2.1 < 60
    ∧ 0 ≤ (duration_components 90061).2.2.2 ∧ (duration_components 90061).2.2.2 < 60 :=
  updown_duration_decomposition 90061 (by norm_num)

/-- C6: an "up" event with empty `started_at` renders exactly
`"Service is \`up\`."`, and with `started_at` set but an empty formatted
duration string it renders exactly `"Service is \`up\` again."` with no
duration clause. -/
theorem updown_up_body_empty_cases (e : UpdownEvent) :
    (e.downtime.started_at = "" → get_body_for_up_event e = "Service is `up`.")
    ∧ (e.downtime.started_at ≠ "" →
        get_time_string_based_on_duration e.downtime.duration = "" →
        get_body_for_up_event e = "Service is `up` again.") := by
  constructor
  · intro h
    simp [get_body_for_up_event, h]
  · intro h1 h2
    simp [get_body_for_up_event, h1, h2]

/-- C6 witness: both branches at concrete events. -/
theorem updown_up_body_empty_cases_witness :
    get_body_for_up_event ⟨"check.up", "x", ⟨"", "", 0⟩⟩ = "Service is `up`."
    ∧ get_body_for_up_event ⟨"check.up", "x", ⟨"e", "s", 0⟩⟩ = "Service is `up` again." :=
  ⟨(updown_up_body_empty_cases ⟨"check.up", "x", ⟨"", "", 0⟩⟩).1 rfl,
   (updown_up_body_empty_cases ⟨"check.up", "x", ⟨"e", "s", 0⟩⟩).2 (by decide) (by decide)⟩

/-- C4 counterexample: the body produced for a "down" event with error `503`
and `started_at = "2020-01-01T00:00:00Z"` carries a single space before
`UTC`, not the double space the claim writes. -/
theorem updown_down_body_spacing_counterexample :
    get_body_for_down_event ⟨"check.down", "https://example.com",
        ⟨"503", "2020-01-01T00:00:00Z", 0⟩⟩
      ≠ "Service is `down`. It returned a 503 error at 2020-01-01 00:00:00  UTC." := by
  decide

/-- C4 amended: a "down" event with error `503` and
`started_at = "2020-01-01T00:00:00Z"` renders exactly
`"Service is \`down\`. It returned a 503 error at 2020-01-01 00:00:00 UTC."`
(single space before `UTC`), independently of the other event fields. -/
theorem updown_down_body_timestamp (ev url : String) (dur : Int) :
    get_body_for_down_event ⟨ev, url, ⟨"503", "2020-01-01T00:00:00Z", dur⟩⟩
      = "Service is `down`. It returned a 503 error at 2020-01-01 00:00:00 UTC." := rfl

/-- Helper for C10: single-character replacement distributes over append. -/
theorem replace_char_append (c : Char) (r l1 l2 : List Char) :
    replace_char c r (l1 ++ l2) = replace_char c r l1 ++ replace_char c r l2 := by
  induction l1 with
  | nil => simp [replace_char]
  | cons x xs ih => simp [replace_char, ih]

/-- C10: the "down" timestamp rewriting is a character-by-character
substitution applied to the whole string: it distributes over append, sends
`"T"` to `" "` and `"Z"` to `" UTC"`, leaves every other character unchanged,
and hence rewrites occurrences of `T`/`Z` anywhere, e.g. inside `"AZT"`. -/
theorem updown_down_timestamp_replaces_every_occurrence :
    (∀ s t : String, down_timestamp (s ++ t) = down_timestamp s ++ down_timestamp t)
    ∧ down_timestamp "T" = " "
    ∧ down_timestamp "Z" = " UTC"
    ∧ (∀ c : Char, c ≠ 'T' → c ≠ 'Z' → down_timestamp (String.mk [c]) = String.mk [c])
    ∧ down_timestamp "AZT" = "A UTC " := by
  refine ⟨?_, by decide, by decide, ?_, by decide⟩
  · intro s t
    apply String.ext
    simp [down_timestamp, String.data_append, replace_char_append]
  · intro c h1 h2
    simp [down_timestamp, replace_char, h1, h2]

/-- C10 witness: the substitution at concrete inputs. -/
theorem updown_down_timestamp_replaces_every_occurrence_witness :
    down_timestamp ("a" ++ "Zb") = down_timestamp "a" ++ down_timestamp "Zb"
    ∧ down_timestamp (String.mk ['x']) = String.mk ['x'] :=
  ⟨updown_down_timestamp_replaces_every_occurrence.1 "a" "Zb",
   updown_down_timestamp_replaces_every_occurrence.2.2.2.1 'x' (by decide) (by decide)⟩

end Updown

namespace Updown

/-- Helper for C2: when the regex match succeeds, the event string starts with
the literal characters `check`. -/
theorem extract_some_check (l : List Char) (h : extract_event_type l ≠ none) :
    "check".data.isPrefixOf l = true := by
  unfold extract_event_type at h
  split at h
  · rfl
  · exact absurd rfl h

/-- Helper for C2: classification success forces the `check` prefix. -/
theorem get_event_type_some_check (s : String) (h : get_event_type s ≠ none) :
    "check".data.isPrefixOf s.data = true := by
  apply extract_some_check
  intro hex
  simp [get_event_type, hex] at h

/-- C2 counterexample: `"checkXup"` does not begin with the literal prefix
`"check."`, yet classification succeeds with `"up"`, because the `.` in
`re.match("check.(.*)", ...)` is a wildcard. -/
theorem updown_event_classification_counterexample :
    "check.".data.isPrefixOf "checkXup".data = false
    ∧ get_event_type "checkXup" = some "up" := by
  decide

/-- C2 amended: classification returns each registered suffix for
`"check." ++ suffix`; the registered keys are exactly `up` and `down`; any
string not starting with the literal characters `check` fails; for a string
`check` plus a non-newline character plus a remainder, classification succeeds
exactly when the remainder up to the first newline is a registered key (and
returns it); a newline in sixth position fails, as does the bare `"check"`. -/
theorem updown_event_classification :
    get_event_type "check.up" = some "up"
    ∧ get_event_type "check.down" = some "down"
    ∧ EVENT_TYPE_BODY_MAPPER.map Prod.fst = ["up", "down"]
    ∧ (∀ s : String, "check".data.isPrefixOf s.data = false → get_event_type s = none)
    ∧ (∀ (c : Char) (rest : List Char), c ≠ '\n' →
        get_event_type (String.mk ('c' :: 'h' :: 'e' :: 'c' :: 'k' :: c :: rest))
          = (if (EVENT_TYPE_BODY_MAPPER.lookup
                  (String.mk (rest.takeWhile (fun ch => ch ≠ '\n')))).isSome
             then some (String.mk (rest.takeWhile (fun ch => ch ≠ '\n')))
             else none))
    ∧ (∀ rest : List Char,
        get_event_type (String.mk ('c' :: 'h' :: 'e' :: 'c' :: 'k' :: '\n' :: rest)) = none)
    ∧ get_event_type "check" = none := by
  refine ⟨by decide, by decide, rfl, ?_, ?_, ?_, by decide⟩
  · intro s h
    cases hgo : get_event_type s with
    | none => rfl
    | some t =>
        have hp := get_event_type_some_check s (by simp [hgo])
        rw [h] at hp
        cases hp
  · intro c rest h
    simp only [get_event_type, extract_event_type, if_neg h]
  · intro rest
    simp [get_event_type, extract_event_type]

/-- C2 witness: the prefix-failure branch and the wildcard-success branch at
concrete inputs. -/
theorem updown_event_classification_witness :
    get_event_type "ping.up" = none
    ∧ get_event_type (String.mk ('c' :: 'h' :: 'e' :: 'c' :: 'k' :: '!' :: "down".data))
        = (if (EVENT_TYPE_BODY_MAPPER.lookup
                (String.mk ("down".data.takeWhile (fun ch => ch ≠ '\n')))).isSome
           then some (String.mk ("down".data.takeWhile (fun ch => ch ≠ '\n')))
           else none) :=
  ⟨updown_event_classification.2.2.2.1 "ping.up" (by decide),
   updown_event_classification.2.2.2.2.1 '!' "down".data (by decide)⟩

/-- Helper for C5: when every event classifies, the loop appends every
envelope to the trace, in order, and completes. -/
theorem run_batch_all_ok (payload : List UpdownEvent) :
    ∀ (envs sent : List Envelope),
      payload.map send_message_for_event = envs.map some →
      run_batch payload sent = (sent ++ envs, true) := by
  induction payload with
  | nil =>
      intro envs sent h
      cases envs with
      | nil => simp [run_batch]
      | cons a l => simp at h
  | cons e rest ih =>
      intro envs sent h
      cases envs with
      | nil => simp at h
      | cons env envs2 =>
          simp only [List.map_cons, List.cons.injEq] at h
          obtain ⟨h1, h2⟩ := h
          simp [run_batch, h1, ih envs2 (sent ++ [env]) h2]

/-- Helper for C5: a failing event stops the loop right there, keeping exactly
the deliveries already performed. -/
theorem run_batch_fails (pre : List UpdownEvent) :
    ∀ (e : UpdownEvent) (post : List UpdownEvent) (envs sent : List Envelope),
      pre.map send_message_for_event = envs.map some →
      send_message_for_event e = none →
      run_batch (pre ++ e :: post) sent = (sent ++ envs, false) := by
  induction pre with
  | nil =>
      intro e post envs sent h he
      cases envs with
      | nil => simp [run_batch, he]
      | cons a l => simp at h
  | cons e0 rest ih =>
      intro e post envs sent h he
      cases envs with
      | nil => simp at h
      | cons env envs2 =>
          simp only [List.map_cons, List.cons.injEq] at h
          obtain ⟨h1, h2⟩ := h
          simp [run_batch, h1, ih e post envs2 (sent ++ [env]) h2 he]

/-- C5: when every event of the payload classifies, the dispatcher delivers
exactly one envelope per event, in input order, and reports success; when the
events split as `pre ++ [e] ++ post` with every event of `pre` classifying and
`e` failing classification, the dispatcher raises at `e`, delivers nothing for
`e` or `post`, and the deliveries for `pre` stand. -/
theorem updown_batch_dispatch_order :
    (∀ (payload : List UpdownEvent) (envs : List Envelope),
        payload.map send_message_for_event = envs.map some →
        api_updown_webhook payload = (envs, true))
    ∧ (∀ (pre : List UpdownEvent) (e : UpdownEvent) (post : List UpdownEvent)
        (envs : List Envelope),
        pre.map send_message_for_event = envs.map some →
        send_message_for_event e = none →
        api_updown_webhook (pre ++ e :: post) = (envs, false)) := by
  constructor
  · intro payload envs h
    simpa [api_updown_webhook] using run_batch_all_ok payload envs [] h
  · intro pre e post envs h he
    simpa [api_updown_webhook] using run_batch_fails pre e post envs [] h he

/-- C5 witness: a two-event batch succeeding in order, and a three-event batch
failing on the middle event with the first delivery kept. -/
theorem updown_batch_dispatch_order_witness :
    api_updown_webhook
        [⟨"check.up", "u1", ⟨"", "", 0⟩⟩, ⟨"check.down", "u3", ⟨"9", "tt", 0⟩⟩]
      = ([⟨"u1", "Service is `up`.", "up"⟩,
          ⟨"u3", "Service is `down`. It returned a 9 error at tt.", "down"⟩], true)
    ∧ api_updown_webhook
        [⟨"check.up", "u1", ⟨"", "", 0⟩⟩, ⟨"bogus", "u2", ⟨"", "", 0⟩⟩,
         ⟨"check.down", "u3", ⟨"9", "tt", 0⟩⟩]
      = ([⟨"u1", "Service is `up`.", "up"⟩], false) :=
  ⟨updown_batch_dispatch_order.1
      [⟨"check.up", "u1", ⟨"", "", 0⟩⟩, ⟨"check.down", "u3", ⟨"9", "tt", 0⟩⟩]
      [⟨"u1", "Service is `up`.", "up"⟩,
       ⟨"u3", "Service is `down`. It returned a 9 error at tt.", "down"⟩] (by decide),
   updown_batch_dispatch_order.2
      [⟨"check.up", "u1", ⟨"", "", 0⟩⟩] ⟨"bogus", "u2", ⟨"", "", 0⟩⟩
      [⟨"check.down", "u3", ⟨"9", "tt", 0⟩⟩]
      [⟨"u1", "Service is `up`.", "up"⟩] (by decide) (by decide)⟩

end Updown

namespace GCI

/-- Helper for C7: an association-list lookup succeeds exactly when the key is
among the mapped-out keys. -/
theorem lookup_isSome_iff_mem {β : Type} (a : String) :
    ∀ l : List (String × β), (l.lookup a).isSome = true ↔ a ∈ l.map Prod.fst := by
  intro l
  induction l with
  | nil => simp [List.lookup]
  | cons hd tl ih =>
      obtain ⟨k, v⟩ := hd
      by_cases h : a = k
      · subst h
        simp [List.lookup]
      · have hbeq : (a == k) = false := by simp [h]
        rw [show List.lookup a ((k, v) :: tl) = List.lookup a tl from by
          simp [List.lookup, hbeq]]
        rw [ih]
        simp [h]

/-- C7: the registered GCI keys are exactly the ten documented event types;
classification returns the payload's `event_type` unchanged when it is
registered and raises `UnknownEventType` (modelled `none`) exactly when it is
not. -/
theorem gci_event_classification (p : GCIPayload) :
    EVENTS_FUNCTION_MAPPER.map Prod.fst
        = ["abandon", "approve", "approve-pending-pc", "claim", "comment",
           "extend", "needswork", "outoftime", "submit", "unassign"]
    ∧ (get_event p = none ↔ p.event_type ∉ EVENTS_FUNCTION_MAPPER.map Prod.fst)
    ∧ (p.event_type ∈ EVENTS_FUNCTION_MAPPER.map Prod.fst → get_event p = some p.event_type) := by
  have key := lookup_isSome_iff_mem p.event_type EVENTS_FUNCTION_MAPPER
  refine ⟨rfl, ?_, ?_⟩
  · simp only [get_event]
    by_cases hb : (EVENTS_FUNCTION_MAPPER.lookup p.event_type).isSome = true
    · simp [hb, key.mp hb]
    · have hm : p.event_type ∉ EVENTS_FUNCTION_MAPPER.map Prod.fst := fun hmem => hb (key.mpr hmem)
      simp [hb, hm]
  · intro hm
    simp only [get_event]
    simp [key.mpr hm]

/-- C7 witness: a registered key is returned unchanged; an unregistered key
fails; and the key list is the documented one. -/
theorem gci_event_classification_witness :
    get_event ⟨"claim", "s", "a", "n", "i", 1⟩ = some "claim"
    ∧ (get_event ⟨"push", "s", "a", "n", "i", 1⟩ = none
        ↔ "push" ∉ EVENTS_FUNCTION_MAPPER.map Prod.fst) :=
  ⟨(gci_event_classification ⟨"claim", "s", "a", "n", "i", 1⟩).2.2 (by decide),
   (gci_event_classification ⟨"push", "s", "a", "n", "i", 1⟩).2.1⟩

/-- C8: each GCI formatter, applied to a payload carrying its registered event
type, instantiates the shared template with the documented actor and action;
`approve-pending-pc`, `needswork` and `extend` append their trailing context;
`outoftime` produces its own sentence; and the link target is the instance URL
built from `task_instance`. -/
theorem gci_formatter_bodies (tcb author name inst : String) (days : Int) :
    get_claim_event_body ⟨"claim", tcb, author, name, inst, days⟩
        = "**" ++ tcb ++ "** claimed the task [" ++ name
          ++ "](https://codein.withgoogle.com/dashboard/task-instances/" ++ inst ++ "/)."
    ∧ get_abandon_event_body ⟨"abandon", tcb, author, name, inst, days⟩
        = "**" ++ tcb ++ "** abandoned the task [" ++ name
          ++ "](https://codein.withgoogle.com/dashboard/task-instances/" ++ inst ++ "/)."
    ∧ get_submit_event_body ⟨"submit", tcb, author, name, inst, days⟩
        = "**" ++ tcb ++ "** submitted the task [" ++ name
          ++ "](https://codein.withgoogle.com/dashboard/task-instances/" ++ inst ++ "/)."
    ∧ get_comment_event_body ⟨"comment", tcb, author, name, inst, days⟩
        = "**" ++ author ++ "** commented on the task [" ++ name
          ++ "](https://codein.withgoogle.com/dashboard/task-instances/" ++ inst ++ "/)."
    ∧ get_approve_event_body ⟨"approve", tcb, author, name, inst, days⟩
        = "**" ++ author ++ "** approved the task [" ++ name
          ++ "](https://codein.withgoogle.com/dashboard/task-instances/" ++ inst ++ "/)."
    ∧ get_approve_pending_pc_event_body ⟨"approve-pending-pc", tcb, author, name, inst, days⟩
        = "**" ++ author ++ "** approved the task [" ++ name
          ++ "](https://codein.withgoogle.com/dashboard/task-instances/" ++ inst
          ++ "/) (pending parental consent)."
    ∧ get_needswork_event_body ⟨"needswork", tcb, author, name, inst, days⟩
        = "**" ++ author ++ "** submitted the task [" ++ name
          ++ "](https://codein.withgoogle.com/dashboard/task-instances/" ++ inst
          ++ "/) for more work."
    ∧ get_extend_event_body ⟨"extend", tcb, author, name, inst, days⟩
        = "**" ++ author ++ "** extended the deadline for the task [" ++ name
          ++ "](https://codein.withgoogle.com/dashboard/task-instances/" ++ inst
          ++ "/) by " ++ toString days ++ " day(s)."
    ∧ get_unassign_event_body ⟨"unassign", tcb, author, name, inst, days⟩
        = "**" ++ author ++ "** unassigned **" ++ tcb ++ "** from the task [" ++ name
          ++ "](https://codein.withgoogle.com/dashboard/task-instances/" ++ inst ++ "/)."
    ∧ get_outoftime_event_body ⟨"outoftime", tcb, author, name, inst, days⟩
        = "The deadline for the task [" ++ name
          ++ "](https://codein.withgoogle.com/dashboard/task-instances/" ++ inst
          ++ "/) has passed." := by
  refine ⟨?_, ?_, ?_, ?_, ?_, ?_, ?_, ?_, ?_, ?_⟩ <;>
    · apply String.ext
      simp only [get_claim_event_body, get_abandon_event_body, get_submit_event_body,
        get_comment_event_body, get_approve_event_body, get_approve_pending_pc_event_body,
        get_needswork_event_body, get_extend_event_body, get_unassign_event_body,
        get_outoftime_event_body, GCI_MESSAGE_TEMPLATE_format,
        GCI_MESSAGE_TEMPLATE_rstrip_dot_format, build_instance_url,
        String.data_append, List.append_assoc]
      rfl

end GCI

/-- C3 counterexample: `"up"` is a registered Updown event type, yet on a
payload with all required fields present and non-empty its body
`"Service is \`up\` again after 1 minute."` contains no `[` (hence no Markdown
link) and does not contain the service name `"x"`. -/
theorem webhook_body_link_counterexample :
    ("up", Updown.get_body_for_up_event) ∈ Updown.EVENT_TYPE_BODY_MAPPER
    ∧ Updown.get_body_for_up_event ⟨"check.up", "x", ⟨"e", "s", 60⟩⟩
        = "Service is `up` again after 1 minute."
    ∧ ¬ ('[' ∈ (Updown.get_body_for_up_event ⟨"check.up", "x", ⟨"e", "s", 60⟩⟩).data)
    ∧ ¬ ('x' ∈ (Updown.get_body_for_up_event ⟨"check.up", "x", ⟨"e", "s", 60⟩⟩).data) :=
  ⟨List.Mem.head _, by decide, by decide, by decide⟩

/-- C3 amended: every registered GCI formatter yields a non-empty body that
contains the Markdown link `[task_definition_name](instance-url)` (and hence
the task name); every registered Updown formatter yields a non-empty body,
but the Updown bodies carry no link or service name — the service URL is used
as the topic instead. -/
theorem webhook_bodies_nonempty_and_gci_link :
    (∀ (k : String) (f : GCI.GCIPayload → String), (k, f) ∈ GCI.EVENTS_FUNCTION_MAPPER →
        ∀ p : GCI.GCIPayload,
          f p ≠ ""
          ∧ ∃ s t : List Char,
              s ++ ("[" ++ p.task_definition_name ++ "]("
                    ++ GCI.build_instance_url p.task_instance ++ ")").data ++ t = (f p).data)
    ∧ (∀ (k : String) (f : Updown.UpdownEvent → String),
        (k, f) ∈ Updown.EVENT_TYPE_BODY_MAPPER →
        ∀ e : Updown.UpdownEvent, f e ≠ "") := by
  constructor
  · intro k f hmem p
    simp only [GCI.EVENTS_FUNCTION_MAPPER, List.mem_cons, List.not_mem_nil, or_false,
      Prod.mk.injEq] at hmem
    obtain ⟨hk, hf⟩ | ⟨hk, hf⟩ | ⟨hk, hf⟩ | ⟨hk, hf⟩ | ⟨hk, hf⟩ | ⟨hk, hf⟩ | ⟨hk, hf⟩
      | ⟨hk, hf⟩ | ⟨hk, hf⟩ | ⟨hk, hf⟩ := hmem
    all_goals subst hf
    · exact ⟨Updown.append_right_ne_empty _ _ (by decide),
        ("**" ++ p.task_claimed_by ++ "** " ++ (p.event_type ++ "ed") ++ " the task ").data,
        ".".data, by
          simp only [GCI.get_abandon_event_body, GCI.GCI_MESSAGE_TEMPLATE_format,
            GCI.build_instance_url, String.data_append, List.append_assoc]
          rfl⟩
    · exact ⟨Updown.append_right_ne_empty _ _ (by decide),
        ("**" ++ p.author ++ "** " ++ (p.event_type ++ "d") ++ " the task ").data,
        ".".data, by
          simp only [GCI.get_approve_event_body, GCI.GCI_MESSAGE_TEMPLATE_format,
            GCI.build_instance_url, String.data_append, List.append_assoc]
          rfl⟩
    · exact ⟨Updown.append_right_ne_empty _ _ (by decide),
        ("**" ++ p.author ++ "** " ++ "approved" ++ " the task ").data,
        " (pending parental consent).".data, by
          simp only [GCI.get_approve_pending_pc_event_body,
            GCI.GCI_MESSAGE_TEMPLATE_rstrip_dot_format,
            GCI.build_instance_url, String.data_append, List.append_assoc]
          rfl⟩
    · exact ⟨Updown.append_right_ne_empty _ _ (by decide),
        ("**" ++ p.task_claimed_by ++ "** " ++ (p.event_type ++ "ed") ++ " the task ").data,
        ".".data, by
          simp only [GCI.get_claim_event_body, GCI.GCI_MESSAGE_TEMPLATE_format,
            GCI.build_instance_url, String.data_append, List.append_assoc]
          rfl⟩
    · exact ⟨Updown.append_right_ne_empty _ _ (by decide),
        ("**" ++ p.author ++ "** " ++ (p.event_type ++ "ed on") ++ " the task ").data,
        ".".data, by
          simp only [GCI.get_comment_event_body, GCI.GCI_MESSAGE_TEMPLATE_format,
            GCI.build_instance_url, String.data_append, List.append_assoc]
          rfl⟩
    · exact ⟨Updown.append_right_ne_empty _ _ (by decide),
        ("**" ++ p.author ++ "** " ++ "extended the deadline for" ++ " the task ").data,
        (" by " ++ toString p.extension_days ++ " day(s).").data, by
          simp only [GCI.get_extend_event_body, GCI.GCI_MESSAGE_TEMPLATE_rstrip_dot_format,
            GCI.build_instance_url, String.data_append, List.append_assoc]
          rfl⟩
    · exact ⟨Updown.append_right_ne_empty _ _ (by decide),
        ("**" ++ p.author ++ "** " ++ "submitted" ++ " the task ").data,
        " for more work.".data, by
          simp only [GCI.get_needswork_event_body, GCI.GCI_MESSAGE_TEMPLATE_rstrip_dot_format,
            GCI.build_instance_url, String.data_append, List.append_assoc]
          rfl⟩
    · exact ⟨Updown.append_right_ne_empty _ _ (by decide),
        "The deadline for the task ".data,
        " has passed.".data, by
          simp only [GCI.get_outoftime_event_body, GCI.build_instance_url,
            String.data_append, List.append_assoc]
          rfl⟩
    · exact ⟨Updown.append_right_ne_empty _ _ (by decide),
        ("**" ++ p.task_claimed_by ++ "** " ++ (p.event_type ++ "ted") ++ " the task ").data,
        ".".data, by
          simp only [GCI.get_submit_event_body, GCI.GCI_MESSAGE_TEMPLATE_format,
            GCI.build_instance_url, String.data_append, List.append_assoc]
          rfl⟩
    · exact ⟨Updown.append_right_ne_empty _ _ (by decide),
        ("**" ++ p.author ++ "** " ++ ("unassigned **" ++ p.task_claimed_by ++ "** from")
          ++ " the task ").data,
        ".".data, by
          simp only [GCI.get_unassign_event_body, GCI.GCI_MESSAGE_TEMPLATE_format,
            GCI.build_instance_url, String.data_append, List.append_assoc]
          rfl⟩
  · intro k f hmem e
    simp only [Updown.EVENT_TYPE_BODY_MAPPER, List.mem_cons, List.not_mem_nil, or_false,
      Prod.mk.injEq] at hmem
    rcases hmem with ⟨-, rfl⟩ | ⟨-, rfl⟩
    · exact Updown.append_right_ne_empty _ _ (by decide)
    · exact Updown.append_right_ne_empty _ _ (by decide)

/-- C3 witness: the `claim` formatter on a concrete payload. -/
theorem webhook_bodies_nonempty_and_gci_link_witness :
    GCI.get_claim_event_body ⟨"claim", "stu", "auth", "tn", "42", 0⟩ ≠ ""
    ∧ ∃ s t : List Char,
        s ++ ("[" ++ "tn" ++ "](" ++ GCI.build_instance_url "42" ++ ")").data ++ t
          = (GCI.get_claim_event_body ⟨"claim", "stu", "auth", "tn", "42", 0⟩).data :=
  webhook_bodies_nonempty_and_gci_link.1 "claim" GCI.get_claim_event_body
    (List.Mem.tail _ (List.Mem.tail _ (List.Mem.tail _ (List.Mem.head _))))
    ⟨"claim", "stu", "auth", "tn", "42", 0⟩
